import Mathlib

/-
Verification development for the firmadgii DGII e-CF gateway.
Shallow embedding of `src/services/certificateService.ts`,
`src/services/dgiiService.ts` and the commercial-approval controller
entry points, with the external collaborators of the service (the
`dgii-ecf` library primitives, the JSON/XML transformer and the
transport client) modelled as oracle functions supplied by a `World`.
-/

namespace Firmadgii

/-- JavaScript truthiness for an optional string: `undefined` and the
empty string are falsy. -/
def strTruthy (o : Option String) : Bool := o.getD "" ≠ ""

/-- JavaScript `a || d` for optional strings (empty string falls back). -/
def jsOrStr (o : Option String) (d : String) : String :=
  if strTruthy o then o.getD "" else d

/-- JavaScript `a || d` for optional numbers (`0` falls back to the default). -/
def jsOrInt (o : Option Int) (d : Int) : Int :=
  match o with
  | none => d
  | some n => if n = 0 then d else n

/-- List-of-characters version of `startsWith`. -/
def charsStart : List Char → List Char → Bool
  | [], _ => true
  | _ :: _, [] => false
  | a :: as, b :: bs => a == b && charsStart as bs

/-- Substring occurrence test on character lists (needle, haystack). -/
def charsHaveSub (needle : List Char) : List Char → Bool
  | [] => charsStart needle []
  | c :: cs => charsStart needle (c :: cs) || charsHaveSub needle cs

/-- `s` starts with `pre`. -/
def strStarts (pre s : String) : Bool := charsStart pre.toList s.toList

/-- Replace the first occurrence of `pat` (character-list version). -/
def replaceFirstChars (pat repl : List Char) : List Char → List Char
  | [] => []
  | c :: cs =>
    if charsStart pat (c :: cs) then repl ++ (c :: cs).drop pat.length
    else c :: replaceFirstChars pat repl cs

/-- Model of JavaScript `s.replace(pat, repl)` with a string pattern:
replaces the first occurrence only. -/
def jsReplaceFirst (s pat repl : String) : String :=
  String.mk (replaceFirstChars pat.toList repl.toList s.toList)

/-- Uppercase every character of a string. -/
def upperStr (s : String) : String := String.mk (s.toList.map Char.toUpper)

/-- Model of the regular-expression test `/E32/i.test(s)`: a
case-insensitive substring search for `E32` anywhere in `s`. -/
def hasE32 (s : String) : Bool := charsHaveSub "E32".toList (upperStr s).toList

/-- Model of `src/config/environment.ts`: the configuration fields the
modelled services read. -/
structure Config where
  certificatePath : String
  certificatePassword : String
  certificateBase64 : String
  dgiiEnvironment : String
  odooWebhookUrl : String
  odooWebhookApiKey : String
deriving Repr, DecidableEq

/-- The configuration produced by `src/config/environment.ts` when no
environment variable overrides a default. -/
def defaultConfig : Config :=
  { certificatePath := "/app/certificates/certificado.p12"
    certificatePassword := ""
    certificateBase64 := ""
    dgiiEnvironment := "test"
    odooWebhookUrl := ""
    odooWebhookApiKey := "" }

/-- The `ENVIRONMENT` enumeration of the `dgii-ecf` library. -/
inductive ENVIRONMENT
  | DEV
  | CERT
  | PROD
deriving Repr, DecidableEq

/-- Model of `DGIIService.getEnvironment` (dgiiService.ts lines 14-26):
`env || config.dgiiEnvironment` followed by a switch with default `DEV`. -/
def getEnvironment (config : Config) (env : Option String) : ENVIRONMENT :=
  if jsOrStr env config.dgiiEnvironment = "test" then ENVIRONMENT.DEV
  else if jsOrStr env config.dgiiEnvironment = "cert" then ENVIRONMENT.CERT
  else if jsOrStr env config.dgiiEnvironment = "prod" then ENVIRONMENT.PROD
  else ENVIRONMENT.DEV

/-- A signing credential as returned by `P12Reader`: private key and
certificate, both PEM strings. -/
structure Certs where
  key : String
  cert : String
deriving Repr, DecidableEq

/-- Model of the `AppError` class: a message and an HTTP status code. -/
structure AppError where
  message : String
  statusCode : Nat
deriving Repr, DecidableEq

/-- Outcome of parsing one piece of credential material with `P12Reader`. -/
inductive LoadResult
  | parsed (c : Certs)
  | parseFail (msg : String)
deriving Repr, DecidableEq

/-- The credential material reachable by `CertificateService`: the files
present on disk (path together with their parse outcome) and the parse
outcome of the Base64-inlined blob from the configuration. -/
structure Storage where
  files : List (String × LoadResult)
  base64Parse : LoadResult
deriving Repr, DecidableEq

/-- One load performed against the credential source. -/
inductive LoadEvent
  | fromBase64
  | fromFile (path : String)
deriving Repr, DecidableEq

/-- The in-memory certificate cache (`private certificates: Map<string, any>`). -/
structure CacheState where
  certificates : List (String × Certs)
deriving Repr, DecidableEq

/-- Model of Node `path.dirname` for slash-separated paths. -/
def dirname (p : String) : String :=
  match (p.splitOn "/").dropLast with
  | [] => "."
  | ps => String.intercalate "/" ps

/-- The per-tenant certificate path
`path.join(path.dirname(config.certificatePath), rnc + ".p12")`. -/
def tenantPath (config : Config) (r : String) : String :=
  dirname config.certificatePath ++ "/" ++ r ++ ".p12"

instance exceptDecEq {ε α : Type} [DecidableEq ε] [DecidableEq α] :
    DecidableEq (Except ε α) :=
  fun x y =>
    match x, y with
    | Except.error a, Except.error b =>
      if h : a = b then isTrue (by rw [h])
      else isFalse (by intro hc; injection hc; contradiction)
    | Except.error _, Except.ok _ => isFalse (by intro hc; injection hc)
    | Except.ok _, Except.error _ => isFalse (by intro hc; injection hc)
    | Except.ok a, Except.ok b =>
      if h : a = b then isTrue (by rw [h])
      else isFalse (by intro hc; injection hc; contradiction)

/-- Result of one `getCertificate` call: the value or error returned,
the cache state afterwards, and the loads performed against storage. -/
structure GetCertOut where
  result : Except AppError Certs
  state : CacheState
  events : List LoadEvent
deriving Repr, DecidableEq

/-- The cache key `rnc || 'default'`. -/
def cacheKeyOf (rnc : Option String) : String := jsOrStr rnc "default"

/-- The path loaded in the file branch of `getCertificate`:
the per-tenant file for a truthy RNC, else the configured default path. -/
def certPathOf (config : Config) (rnc : Option String) : String :=
  if strTruthy rnc then tenantPath config (rnc.getD "") else config.certificatePath

/-- The cache-miss branch of `CertificateService.getCertificate`
(certificateService.ts lines 21-45): the Base64 blob is used when
configured and no RNC was requested, else the (per-tenant or default)
file is loaded; a missing file raises the internal 404 `AppError`.
Every failure inside the `try` block, including that internal 404, is
re-wrapped by the `catch` into a 500 `AppError` whose message is
prefixed with `Error loading certificate: `. -/
def loadFresh (config : Config) (storage : Storage) (st : CacheState)
    (rnc : Option String) : GetCertOut :=
  if config.certificateBase64 ≠ "" ∧ strTruthy rnc = false then
    match storage.base64Parse with
    | LoadResult.parsed c =>
        ⟨Except.ok c, ⟨(cacheKeyOf rnc, c) :: st.certificates⟩, [LoadEvent.fromBase64]⟩
    | LoadResult.parseFail m =>
        ⟨Except.error ⟨"Error loading certificate: " ++ m, 500⟩, st, [LoadEvent.fromBase64]⟩
  else
    match storage.files.lookup (certPathOf config rnc) with
    | none =>
        ⟨Except.error
            ⟨"Error loading certificate: " ++
                ("Certificate not found for RNC: " ++ cacheKeyOf rnc),
              500⟩,
          st, []⟩
    | some (LoadResult.parsed c) =>
        ⟨Except.ok c, ⟨(cacheKeyOf rnc, c) :: st.certificates⟩,
          [LoadEvent.fromFile (certPathOf config rnc)]⟩
    | some (LoadResult.parseFail m) =>
        ⟨Except.error ⟨"Error loading certificate: " ++ m, 500⟩, st,
          [LoadEvent.fromFile (certPathOf config rnc)]⟩

/-- Model of `CertificateService.getCertificate`
(certificateService.ts lines 12-50): a cache hit returns the cached
entry without touching storage; a miss runs `loadFresh` and, on
success, stores the parsed credential under the cache key. -/
def getCertificate (config : Config) (storage : Storage) (st : CacheState)
    (rnc : Option String) : GetCertOut :=
  match st.certificates.lookup (cacheKeyOf rnc) with
  | some c => ⟨Except.ok c, st, []⟩
  | none => loadFresh config storage st rnc

/-! Invoice payload model (`InvoiceData` from `src/types`), mirroring the
optional chains of `dgiiService.ts`: every nested field may be absent. -/

/-- The `IdDoc` block of an invoice header. -/
structure IdDocT where
  eNCF : Option String := none
  TipoIngresos : Option String := none
  TipoPago : Option Int := none
deriving Repr, DecidableEq

/-- The `Emisor` block of an invoice header. -/
structure EmisorT where
  RNCEmisor : Option String := none
  RazonSocialEmisor : Option String := none
  FechaEmision : Option String := none
deriving Repr, DecidableEq

/-- The `Comprador` block of an invoice header. -/
structure CompradorT where
  RNCComprador : Option String := none
  RazonSocialComprador : Option String := none
deriving Repr, DecidableEq

/-- The `Totales` block of an invoice header. -/
structure TotalesT where
  MontoGravadoTotal : Option Int := none
  MontoGravadoI1 : Option Int := none
  MontoExento : Option Int := none
  TotalITBIS : Option Int := none
  TotalITBIS1 : Option Int := none
  MontoTotal : Option Int := none
  MontoNoFacturable : Option Int := none
deriving Repr, DecidableEq

/-- The `Encabezado` (header) of an ECF invoice. -/
structure EncabezadoT where
  Version : Option String := none
  IdDoc : Option IdDocT := none
  Emisor : Option EmisorT := none
  Comprador : Option CompradorT := none
  Totales : Option TotalesT := none
deriving Repr, DecidableEq

/-- The body under the `ECF` root key. -/
structure EcfBodyT where
  Encabezado : Option EncabezadoT := none
deriving Repr, DecidableEq

/-- An invoice payload as received by the service (`invoiceData.ECF...`). -/
structure InvoiceData where
  ECF : Option EcfBodyT := none
deriving Repr, DecidableEq

/-- The optional chain `invoiceData.ECF?.Encabezado`. -/
def ecfEncab (d : InvoiceData) : Option EncabezadoT :=
  d.ECF.bind (fun b => b.Encabezado)

/-! The RFCE summary shape constructed by `sendSummaryWithEcf`
(dgiiService.ts lines 223-255). -/

/-- `IdDoc` of the constructed RFCE summary. -/
structure RfceIdDoc where
  TipoeCF : Int
  eNCF : String
  TipoIngresos : String
  TipoPago : Int
deriving Repr, DecidableEq

/-- `Emisor` of the constructed RFCE summary. -/
structure RfceEmisor where
  RNCEmisor : String
  RazonSocialEmisor : Option String
  FechaEmision : Option String
deriving Repr, DecidableEq

/-- `Comprador` of the constructed RFCE summary. -/
structure RfceComprador where
  RNCComprador : Option String
  RazonSocialComprador : Option String
deriving Repr, DecidableEq

/-- `Totales` of the constructed RFCE summary. -/
structure RfceTotales where
  MontoGravadoTotal : Int
  MontoGravadoI1 : Int
  MontoExento : Int
  TotalITBIS : Int
  TotalITBIS1 : Int
  MontoTotal : Int
  MontoNoFacturable : Int
  MontoPeriodo : Int
deriving Repr, DecidableEq

/-- `Encabezado` of the constructed RFCE summary, including the
`CodigoSeguridadeCF` security-code field. -/
structure RfceEncabezado where
  Version : String
  IdDoc : RfceIdDoc
  Emisor : RfceEmisor
  Comprador : RfceComprador
  Totales : RfceTotales
  CodigoSeguridadeCF : String
deriving Repr, DecidableEq

/-- Wrapper matching the `{ RFCE: { Encabezado: ... } }` nesting. -/
structure RfceBody where
  Encabezado : RfceEncabezado
deriving Repr, DecidableEq

/-- The full RFCE payload sent to the transformer. -/
structure RfceData where
  RFCE : RfceBody
deriving Repr, DecidableEq

/-- Transliteration of the `rfceData` object literal built by
`sendSummaryWithEcf` from the ECF header `h`, the request `rnc` and
`encf`, and the security code of the signed full invoice. -/
def buildRfce (h : EncabezadoT) (rnc encf ecfSecurityCode : String) : RfceData :=
  { RFCE :=
    { Encabezado :=
      { Version := jsOrStr h.Version "1.0"
        IdDoc :=
          { TipoeCF := 32
            eNCF := jsOrStr (h.IdDoc.bind (fun i => i.eNCF)) encf
            TipoIngresos := jsOrStr (h.IdDoc.bind (fun i => i.TipoIngresos)) "01"
            TipoPago := jsOrInt (h.IdDoc.bind (fun i => i.TipoPago)) 1 }
        Emisor :=
          { RNCEmisor := jsOrStr (h.Emisor.bind (fun e => e.RNCEmisor)) rnc
            RazonSocialEmisor := h.Emisor.bind (fun e => e.RazonSocialEmisor)
            FechaEmision := h.Emisor.bind (fun e => e.FechaEmision) }
        Comprador :=
          { RNCComprador := h.Comprador.bind (fun c => c.RNCComprador)
            RazonSocialComprador := h.Comprador.bind (fun c => c.RazonSocialComprador) }
        Totales :=
          { MontoGravadoTotal := jsOrInt (h.Totales.bind (fun t => t.MontoGravadoTotal)) 0
            MontoGravadoI1 := jsOrInt (h.Totales.bind (fun t => t.MontoGravadoI1)) 0
            MontoExento := jsOrInt (h.Totales.bind (fun t => t.MontoExento)) 0
            TotalITBIS := jsOrInt (h.Totales.bind (fun t => t.TotalITBIS)) 0
            TotalITBIS1 := jsOrInt (h.Totales.bind (fun t => t.TotalITBIS1)) 0
            MontoTotal := jsOrInt (h.Totales.bind (fun t => t.MontoTotal)) 0
            MontoNoFacturable := jsOrInt (h.Totales.bind (fun t => t.MontoNoFacturable)) 0
            MontoPeriodo := jsOrInt (h.Totales.bind (fun t => t.MontoTotal)) 0 }
        CodigoSeguridadeCF := ecfSecurityCode } } }

/-! Receipt (ARECF) payload model used by `sendReceipt`. -/

/-- The `DetalleAcusedeRecibo` block of an ARECF receipt. -/
structure DetalleAcuse where
  RNCComprador : Option String := none
  eNCF : Option String := none
deriving Repr, DecidableEq

/-- The body under the `ARECF` root key. -/
structure ArecfBodyT where
  DetalleAcusedeRecibo : Option DetalleAcuse := none
deriving Repr, DecidableEq

/-- A receipt payload as received by `sendReceipt`. -/
structure ReceiptData where
  ARECF : Option ArecfBodyT := none
deriving Repr, DecidableEq

/-! Commercial approval (ACECF) model. -/

/-- Input of `generateAcecfXml` / `sendCommercialApproval`. -/
structure AcecfInput where
  rncEmisor : String
  eNCF : String
  fechaEmision : String
  montoTotal : Int
  rncComprador : String
  estado : String
  detalleMotivoRechazo : Option String
deriving Repr, DecidableEq

/-- The `DetalleAprobacionComercial` object built by `generateAcecfXml`;
`DetalleMotivoRechazo` is `none` when the spread condition
`estado === '2' && detalleMotivoRechazo` fails, modelling omission of
the element. -/
structure AcecfDetalle where
  Version : String
  RNCEmisor : String
  eNCF : String
  FechaEmision : String
  MontoTotal : String
  RNCComprador : String
  Estado : String
  DetalleMotivoRechazo : Option String
  FechaHoraAprobacionComercial : String
deriving Repr, DecidableEq

/-- Transliteration of the `acecfData.ACECF.DetalleAprobacionComercial`
object literal of `generateAcecfXml` (dgiiService.ts lines 718-738). -/
def buildAcecfDetalle (nowFmt : String) (d : AcecfInput) : AcecfDetalle :=
  { Version := "1.0"
    RNCEmisor := d.rncEmisor
    eNCF := d.eNCF
    FechaEmision := d.fechaEmision
    MontoTotal := toString d.montoTotal
    RNCComprador := d.rncComprador
    Estado := d.estado
    DetalleMotivoRechazo :=
      if d.estado = "2" ∧ strTruthy d.detalleMotivoRechazo then d.detalleMotivoRechazo
      else none
    FechaHoraAprobacionComercial := nowFmt }

/-- The fields `extractEcfInfo` pulls out of a received ECF XML; the DOM
lookup defaults every field to the empty string. -/
structure EcfInfo where
  tipoeCF : String := ""
  eNCF : String := ""
  rncEmisor : String := ""
  razonSocialEmisor : String := ""
  rncComprador : String := ""
  razonSocialComprador : String := ""
  fechaEmision : String := ""
  montoTotal : String := ""
  totalITBIS : String := ""
deriving Repr, DecidableEq

/-- An authority response, reduced to the tracking identifier. -/
structure DgiiResponse where
  trackId : Option String
deriving Repr, DecidableEq

/-- A QR verification URL: either the short-form consumption-invoice
scheme (`generateFcQRCodeURL`) or the full electronic-invoice scheme
(`generateEcfQRCodeURL`), each carrying the arguments the service
passes to the corresponding `dgii-ecf` builder. -/
inductive QRUrl
  | fc (rncEmisor encf : String) (montoTotal : Int) (securityCode : String)
      (env : ENVIRONMENT)
  | ecf (rncEmisor : String) (rncComprador : Option String) (encf : String)
      (montoTotal : Option String) (fechaEmision : Option String)
      (fechaFirma : String) (securityCode : String) (env : ENVIRONMENT)
deriving Repr, DecidableEq

/-- Observable steps of one service call, in execution order: credential
resolution, authority authentication, signing, submission to an
authority operation, the Odoo notification and error logging. -/
inductive Event
  | getCert (rnc : Option String)
  | auth
  | sign (docType : String)
  | submit (op : String) (payload : String) (fileName : String)
  | odooNotify
  | logError (msg : String)
deriving Repr, DecidableEq

/-- The external collaborators of `DGIIService`, supplied as oracles:
the certificate service, the `dgii-ecf` signing and transport
primitives, the JSON/XML transformer, and clock readings.  Transport
calls and authentication carry their outcome (`Except`), so every
failure branch of the service is representable. -/
structure World where
  config : Config
  certs : Option String → Except AppError Certs
  authResult : Except String Unit
  signFn : Certs → String → String → String
  codeFn : String → String
  ecf2xml : InvoiceData → String
  rfce2xml : RfceData → String
  arecf2xml : ReceiptData → String
  acecf2xml : AcecfDetalle → String
  xml2json : String → String
  ecfFromXml : String → String → String → Option String → String
  extractInfo : String → EcfInfo
  sendDocResult : Except String DgiiResponse
  sendSummaryResult : Except String DgiiResponse
  sendApprovalResult : Except String DgiiResponse
  voidResult : Except String DgiiResponse
  odooResult : Except String Unit
  nowIso : String
  nowFmt : String

/-- Output of `DGIIService.signXml`: the signed XML and the security
code derived from it. -/
structure SignOut where
  signedXml : String
  securityCode : String
deriving Repr, DecidableEq

/-- Model of `DGIIService.signXml` (dgiiService.ts lines 46-62): resolve
the credential, sign with `Signature.signXml`, then derive the security
code from the signed XML with `getCodeSixDigitfromSignature`. -/
def signXmlSvc (w : World) (xmlData documentType : String) (rnc : Option String) :
    Except AppError SignOut × List Event :=
  match w.certs rnc with
  | Except.error e =>
      (Except.error ⟨"Error signing XML: " ++ e.message, 500⟩, [Event.getCert rnc])
  | Except.ok c =>
      let signedXml := w.signFn c xmlData documentType
      (Except.ok ⟨signedXml, w.codeFn signedXml⟩,
        [Event.getCert rnc, Event.sign documentType])

/-- Result of `sendInvoice`: the authority response spread together with
the signed XML, security code and QR URL. -/
structure InvoiceResult where
  response : DgiiResponse
  signedXml : String
  securityCode : String
  qrCodeUrl : QRUrl
deriving Repr, DecidableEq

/-- Model of `DGIIService.sendInvoice` (dgiiService.ts lines 64-109). -/
def sendInvoice (w : World) (invoiceData : InvoiceData) (rnc encf : String)
    (environment : Option String) : Except AppError InvoiceResult × List Event :=
  match w.certs (some rnc) with
  | Except.error e =>
      (Except.error ⟨"Error sending invoice: " ++ e.message, 500⟩, [Event.getCert (some rnc)])
  | Except.ok _ =>
    match w.authResult with
    | Except.error m =>
        (Except.error ⟨"Error sending invoice: " ++ m, 500⟩,
          [Event.getCert (some rnc), Event.auth])
    | Except.ok _ =>
      let xml := w.ecf2xml invoiceData
      match signXmlSvc w xml "ECF" (some rnc) with
      | (Except.error e, sev) =>
          (Except.error ⟨"Error sending invoice: " ++ e.message, 500⟩,
            [Event.getCert (some rnc), Event.auth] ++ sev)
      | (Except.ok s, sev) =>
        let fileName := rnc ++ encf ++ ".xml"
        match w.sendDocResult with
        | Except.error m =>
            (Except.error ⟨"Error sending invoice: " ++ m, 500⟩,
              [Event.getCert (some rnc), Event.auth] ++ sev ++
                [Event.submit "sendElectronicDocument" s.signedXml fileName])
        | Except.ok resp =>
          let encab := ecfEncab invoiceData
          let qr := QRUrl.ecf rnc
            ((encab.bind (fun h => h.Comprador)).bind (fun c => c.RNCComprador)) encf
            (((encab.bind (fun h => h.Totales)).bind (fun t => t.MontoTotal)).map toString)
            ((encab.bind (fun h => h.Emisor)).bind (fun e => e.FechaEmision))
            w.nowIso s.securityCode (getEnvironment w.config environment)
          (Except.ok ⟨resp, s.signedXml, s.securityCode, qr⟩,
            [Event.getCert (some rnc), Event.auth] ++ sev ++
              [Event.submit "sendElectronicDocument" s.signedXml fileName])

/-- Result of `sendSummary`: the authority response spread together with
the signed XML and security code. -/
structure SummaryResult where
  response : DgiiResponse
  signedXml : String
  securityCode : String
deriving Repr, DecidableEq

/-- Model of `DGIIService.sendSummary` (dgiiService.ts lines 171-199). -/
def sendSummary (w : World) (invoiceData : InvoiceData) (rnc encf : String)
    (_environment : Option String) : Except AppError SummaryResult × List Event :=
  match w.certs (some rnc) with
  | Except.error e =>
      (Except.error ⟨"Error sending summary: " ++ e.message, 500⟩, [Event.getCert (some rnc)])
  | Except.ok _ =>
    match w.authResult with
    | Except.error m =>
        (Except.error ⟨"Error sending summary: " ++ m, 500⟩,
          [Event.getCert (some rnc), Event.auth])
    | Except.ok _ =>
      let xml := w.ecf2xml invoiceData
      match signXmlSvc w xml "RFCE" (some rnc) with
      | (Except.error e, sev) =>
          (Except.error ⟨"Error sending summary: " ++ e.message, 500⟩,
            [Event.getCert (some rnc), Event.auth] ++ sev)
      | (Except.ok s, sev) =>
        let fileName := rnc ++ encf ++ ".xml"
        match w.sendSummaryResult with
        | Except.error m =>
            (Except.error ⟨"Error sending summary: " ++ m, 500⟩,
              [Event.getCert (some rnc), Event.auth] ++ sev ++
                [Event.submit "sendSummary" s.signedXml fileName])
        | Except.ok resp =>
            (Except.ok ⟨resp, s.signedXml, s.securityCode⟩,
              [Event.getCert (some rnc), Event.auth] ++ sev ++
                [Event.submit "sendSummary" s.signedXml fileName])

/-- Result of `sendSummaryWithEcf`: authority response, the fully
signed ECF (kept for local archival), the signed RFCE summary that was
submitted, both security codes, and the consumption QR URL. -/
structure SummaryWithEcfResult where
  response : DgiiResponse
  signedEcfXml : String
  signedRfceXml : String
  ecfSecurityCode : String
  rfceSecurityCode : String
  qrCodeUrl : QRUrl
deriving Repr, DecidableEq

/-- Model of `DGIIService.sendSummaryWithEcf` (dgiiService.ts lines
201-286): authenticate, sign the full ECF, convert its header into an
RFCE summary whose `CodigoSeguridadeCF` is the ECF security code, sign
the RFCE and submit it via `sendSummary`. -/
def sendSummaryWithEcf (w : World) (ecfData : InvoiceData) (rnc encf : String)
    (environment : Option String) : Except AppError SummaryWithEcfResult × List Event :=
  match w.certs (some rnc) with
  | Except.error e =>
      (Except.error ⟨"Error sending summary with ECF: " ++ e.message, 500⟩,
        [Event.getCert (some rnc)])
  | Except.ok _ =>
    match w.authResult with
    | Except.error m =>
        (Except.error ⟨"Error sending summary with ECF: " ++ m, 500⟩,
          [Event.getCert (some rnc), Event.auth])
    | Except.ok _ =>
      let ecfXml := w.ecf2xml ecfData
      match signXmlSvc w ecfXml "ECF" (some rnc) with
      | (Except.error e, sev) =>
          (Except.error ⟨"Error sending summary with ECF: " ++ e.message, 500⟩,
            [Event.getCert (some rnc), Event.auth] ++ sev)
      | (Except.ok sEcf, sev1) =>
        match ecfEncab ecfData with
        | none =>
            (Except.error
                ⟨"Error sending summary with ECF: Invalid ECF data: missing Encabezado", 500⟩,
              [Event.getCert (some rnc), Event.auth] ++ sev1)
        | some h =>
          let rfceData := buildRfce h rnc encf sEcf.securityCode
          let rfceXml := w.rfce2xml rfceData
          match signXmlSvc w rfceXml "RFCE" (some rnc) with
          | (Except.error e, sev2) =>
              (Except.error ⟨"Error sending summary with ECF: " ++ e.message, 500⟩,
                [Event.getCert (some rnc), Event.auth] ++ sev1 ++ sev2)
          | (Except.ok sRfce, sev2) =>
            let fileName := rnc ++ encf ++ ".xml"
            match w.sendSummaryResult with
            | Except.error m =>
                (Except.error ⟨"Error sending summary with ECF: " ++ m, 500⟩,
                  [Event.getCert (some rnc), Event.auth] ++ sev1 ++ sev2 ++
                    [Event.submit "sendSummary" sRfce.signedXml fileName])
            | Except.ok resp =>
              let qr := QRUrl.fc rnc encf
                (jsOrInt (h.Totales.bind (fun t => t.MontoTotal)) 0)
                sEcf.securityCode (getEnvironment w.config environment)
              (Except.ok
                  ⟨resp, sEcf.signedXml, sRfce.signedXml, sEcf.securityCode,
                    sRfce.securityCode, qr⟩,
                [Event.getCert (some rnc), Event.auth] ++ sev1 ++ sev2 ++
                  [Event.submit "sendSummary" sRfce.signedXml fileName])

/-- Result of `sendReceipt`. -/
structure ReceiptResult where
  response : DgiiResponse
  signedXml : String
  fileName : String
deriving Repr, DecidableEq

/-- Model of `DGIIService.sendReceipt` (dgiiService.ts lines 288-351):
validate the receipt fields, resolve the credential, transform and sign
the ARECF, and only then authenticate and submit; signing precedes
authentication here. -/
def sendReceipt (w : World) (receiptData : ReceiptData) (rnc : Option String)
    (_environment : Option String) : Except AppError ReceiptResult × List Event :=
  let det := receiptData.ARECF.bind (fun a => a.DetalleAcusedeRecibo)
  let rncComprador := det.bind (fun d => d.RNCComprador)
  let encf := det.bind (fun d => d.eNCF)
  if strTruthy rncComprador = false ∨ strTruthy encf = false then
    (Except.error ⟨"Error sending receipt: Missing RNCComprador or eNCF in receipt data", 500⟩,
      [])
  else
    let fileName := rncComprador.getD "" ++ encf.getD "" ++ ".xml"
    match w.certs rnc with
    | Except.error e =>
        (Except.error ⟨"Error sending receipt: " ++ e.message, 500⟩, [Event.getCert rnc])
    | Except.ok _ =>
      let xml := jsReplaceFirst (w.arecf2xml receiptData)
        "<?xml version=\"1.0\" encoding=\"utf-8\"?>" "<?xml version=\"1.0\"?>"
      match signXmlSvc w xml "ARECF" rnc with
      | (Except.error e, sev) =>
          (Except.error ⟨"Error sending receipt: " ++ e.message, 500⟩,
            [Event.getCert rnc] ++ sev)
      | (Except.ok s, sev) =>
        match w.authResult with
        | Except.error m =>
            (Except.error ⟨"Error sending receipt: " ++ m, 500⟩,
              [Event.getCert rnc] ++ sev ++ [Event.auth])
        | Except.ok _ =>
          match w.sendDocResult with
          | Except.error m =>
              (Except.error ⟨"Error sending receipt: " ++ m, 500⟩,
                [Event.getCert rnc] ++ sev ++
                  [Event.auth, Event.submit "sendElectronicDocument" s.signedXml fileName])
          | Except.ok resp =>
              (Except.ok ⟨resp, s.signedXml, fileName⟩,
                [Event.getCert rnc] ++ sev ++
                  [Event.auth, Event.submit "sendElectronicDocument" s.signedXml fileName])

/-- Result of `sendApproval` / `voidSequence`: response plus signed XML. -/
structure SignedSubmitResult where
  response : DgiiResponse
  signedXml : String
deriving Repr, DecidableEq

/-- Model of `DGIIService.sendApproval` (dgiiService.ts lines 353-380):
the approval payload is an arbitrary JSON value, serialized by the
transformer (`ser`), signed as ACECF and submitted via
`sendCommercialApproval`; no content validation is performed. -/
def sendApproval {α : Type} (w : World) (ser : α → String) (approvalData : α)
    (fileName : String) (rnc : Option String) (_environment : Option String) :
    Except AppError SignedSubmitResult × List Event :=
  match w.certs rnc with
  | Except.error e =>
      (Except.error ⟨"Error sending approval: " ++ e.message, 500⟩, [Event.getCert rnc])
  | Except.ok _ =>
    match w.authResult with
    | Except.error m =>
        (Except.error ⟨"Error sending approval: " ++ m, 500⟩, [Event.getCert rnc, Event.auth])
    | Except.ok _ =>
      let xml := ser approvalData
      match signXmlSvc w xml "ACECF" rnc with
      | (Except.error e, sev) =>
          (Except.error ⟨"Error sending approval: " ++ e.message, 500⟩,
            [Event.getCert rnc, Event.auth] ++ sev)
      | (Except.ok s, sev) =>
        match w.sendApprovalResult with
        | Except.error m =>
            (Except.error ⟨"Error sending approval: " ++ m, 500⟩,
              [Event.getCert rnc, Event.auth] ++ sev ++
                [Event.submit "sendCommercialApproval" s.signedXml fileName])
        | Except.ok resp =>
            (Except.ok ⟨resp, s.signedXml⟩,
              [Event.getCert rnc, Event.auth] ++ sev ++
                [Event.submit "sendCommercialApproval" s.signedXml fileName])

/-- Model of `DGIIService.voidSequence` (dgiiService.ts lines 382-409). -/
def voidSequence {α : Type} (w : World) (ser : α → String) (voidData : α)
    (fileName : String) (rnc : Option String) (_environment : Option String) :
    Except AppError SignedSubmitResult × List Event :=
  match w.certs rnc with
  | Except.error e =>
      (Except.error ⟨"Error voiding sequence: " ++ e.message, 500⟩, [Event.getCert rnc])
  | Except.ok _ =>
    match w.authResult with
    | Except.error m =>
        (Except.error ⟨"Error voiding sequence: " ++ m, 500⟩, [Event.getCert rnc, Event.auth])
    | Except.ok _ =>
      let xml := ser voidData
      match signXmlSvc w xml "ANECF" rnc with
      | (Except.error e, sev) =>
          (Except.error ⟨"Error voiding sequence: " ++ e.message, 500⟩,
            [Event.getCert rnc, Event.auth] ++ sev)
      | (Except.ok s, sev) =>
        match w.voidResult with
        | Except.error m =>
            (Except.error ⟨"Error voiding sequence: " ++ m, 500⟩,
              [Event.getCert rnc, Event.auth] ++ sev ++
                [Event.submit "voidENCF" s.signedXml fileName])
        | Except.ok resp =>
            (Except.ok ⟨resp, s.signedXml⟩,
              [Event.getCert rnc, Event.auth] ++ sev ++
                [Event.submit "voidENCF" s.signedXml fileName])

/-- Model of `DGIIService.generateAcecfXml` (dgiiService.ts lines
700-748): build the approval object and serialize it. -/
def generateAcecfXml (w : World) (d : AcecfInput) : String :=
  w.acecf2xml (buildAcecfDetalle w.nowFmt d)

/-- Result of `sendCommercialApproval`. -/
structure CommercialApprovalResult where
  success : Bool
  response : DgiiResponse
  signedXml : String
  fileName : String
deriving Repr, DecidableEq

/-- Model of `DGIIService.sendCommercialApproval` (dgiiService.ts lines
758-804): generate the ACECF XML, sign it, resolve the credential and
submit — with no authentication call and no validation of `estado` or
of the rejection reason. -/
def sendCommercialApproval (w : World) (d : AcecfInput) (rnc : Option String)
    (_environment : Option String) : Except AppError CommercialApprovalResult × List Event :=
  let acecfXml := generateAcecfXml w d
  match signXmlSvc w acecfXml "ACECF" rnc with
  | (Except.error e, sev) =>
      (Except.error ⟨"Error sending commercial approval: " ++ e.message, 500⟩, sev)
  | (Except.ok s, sev) =>
    match w.certs rnc with
    | Except.error e =>
        (Except.error ⟨"Error sending commercial approval: " ++ e.message, 500⟩,
          sev ++ [Event.getCert rnc])
    | Except.ok _ =>
      let fileName := "ACECF_" ++ d.rncComprador ++ "_" ++ d.eNCF ++ ".xml"
      match w.sendApprovalResult with
      | Except.error m =>
          (Except.error ⟨"Error sending commercial approval: " ++ m, 500⟩,
            sev ++ [Event.getCert rnc,
              Event.submit "sendCommercialApproval" s.signedXml fileName])
      | Except.ok resp =>
          (Except.ok ⟨true, resp, s.signedXml, fileName⟩,
            sev ++ [Event.getCert rnc,
              Event.submit "sendCommercialApproval" s.signedXml fileName])

/-- The `YYYY-MM-DD` → `DD-MM-YYYY` reformatting performed by
`processCommercialApproval` (dgiiService.ts lines 834-841). -/
def reformatFecha (f : String) : String :=
  let parts := f.splitOn "-"
  if 2 ≤ parts.length ∧ f.length = 10 then
    if (parts.headD "").length = 4 then
      parts.getD 2 "undefined" ++ "-" ++ parts.getD 1 "undefined" ++ "-" ++ parts.headD ""
    else f
  else f

/-- Result of `processCommercialApproval`: the approval-send result
spread together with the extracted ECF info. -/
structure CommercialApprovalWithInfo where
  result : CommercialApprovalResult
  ecfInfo : EcfInfo
deriving Repr, DecidableEq

/-- Model of `DGIIService.processCommercialApproval` (dgiiService.ts
lines 816-865): extract the ECF fields, require issuer, buyer and
document number, reformat the issue date, then delegate to
`sendCommercialApproval`; no check of the rejection reason. -/
def processCommercialApproval (w : World) (ecfXml estado : String)
    (motivoRechazo : Option String) (rnc : Option String) (environment : Option String) :
    Except AppError CommercialApprovalWithInfo × List Event :=
  let info := w.extractInfo ecfXml
  if info.eNCF = "" ∨ info.rncEmisor = "" ∨ info.rncComprador = "" then
    (Except.error
        ⟨"Error processing commercial approval: Invalid ECF: missing required fields (eNCF, RNCEmisor, or RNCComprador)",
          500⟩, [])
  else
    match sendCommercialApproval w
        ⟨info.rncEmisor, info.eNCF, reformatFecha info.fechaEmision,
          jsOrInt info.montoTotal.toInt? 0, info.rncComprador, estado, motivoRechazo⟩
        rnc environment with
    | (Except.error e, tr) =>
        (Except.error ⟨"Error processing commercial approval: " ++ e.message, 500⟩, tr)
    | (Except.ok r, tr) => (Except.ok ⟨r, info⟩, tr)

/-- A controller-level failure response (`res.status(...).json(...)`). -/
structure HttpFail where
  status : Nat
  error : String
deriving Repr, DecidableEq

/-- The request body of the `sendAcecf` controller. -/
structure AcecfRequest where
  rncEmisor : Option String := none
  eNCF : Option String := none
  fechaEmision : Option String := none
  montoTotal : Option Int := none
  rncComprador : Option String := none
  estado : Option String := none
  detalleMotivoRechazo : Option String := none
  rnc : Option String := none
  environment : Option String := none
deriving Repr, DecidableEq

/-- Model of the `sendAcecf` controller handler (certificateController.ts
lines 420-478): required-field check, `estado ∈ {1,2}` check, and the
rejection-reason check for `estado = 2`, all before any service call;
service errors surface through the error-handler middleware. -/
def sendAcecfCtrl (w : World) (req : AcecfRequest) :
    Except HttpFail CommercialApprovalResult × List Event :=
  if strTruthy req.rncEmisor = false ∨ strTruthy req.eNCF = false ∨
      strTruthy req.fechaEmision = false ∨ req.montoTotal = none ∨
      strTruthy req.rncComprador = false ∨ strTruthy req.estado = false then
    (Except.error
        ⟨400,
          "Missing required fields: rncEmisor, eNCF, fechaEmision, montoTotal, rncComprador, estado"⟩,
      [])
  else if ¬ (req.estado = some "1" ∨ req.estado = some "2") then
    (Except.error ⟨400, "Invalid estado. Must be 1 (Aprobado) or 2 (Rechazado)"⟩, [])
  else if req.estado = some "2" ∧ strTruthy req.detalleMotivoRechazo = false then
    (Except.error ⟨400, "detalleMotivoRechazo is required when estado is 2 (Rechazado)"⟩, [])
  else
    match sendCommercialApproval w
        ⟨req.rncEmisor.getD "", req.eNCF.getD "", req.fechaEmision.getD "",
          req.montoTotal.getD 0, req.rncComprador.getD "", req.estado.getD "",
          req.detalleMotivoRechazo⟩
        req.rnc req.environment with
    | (Except.ok r, tr) => (Except.ok r, tr)
    | (Except.error e, tr) => (Except.error ⟨e.statusCode, e.message⟩, tr)

/-- Model of the `processAcecfFromEcf` controller handler
(certificateController.ts lines 484-525). -/
def processAcecfFromEcfCtrl (w : World) (ecfXml estado motivoRechazo rnc environment :
    Option String) : Except HttpFail CommercialApprovalWithInfo × List Event :=
  if strTruthy ecfXml = false ∨ strTruthy estado = false then
    (Except.error ⟨400, "ecfXml and estado are required"⟩, [])
  else if ¬ (estado = some "1" ∨ estado = some "2") then
    (Except.error ⟨400, "Invalid estado. Must be 1 (Aprobado) or 2 (Rechazado)"⟩, [])
  else if estado = some "2" ∧ strTruthy motivoRechazo = false then
    (Except.error ⟨400, "motivoRechazo is required when estado is 2 (Rechazado)"⟩, [])
  else
    match processCommercialApproval w (ecfXml.getD "") (estado.getD "") motivoRechazo
        rnc environment with
    | (Except.ok r, tr) => (Except.ok r, tr)
    | (Except.error e, tr) => (Except.error ⟨e.statusCode, e.message⟩, tr)

/-- `ReceivedStatus['e-CF Recibido']` of the `dgii-ecf` library. -/
def statusRecibido : String := "e-CF Recibido"

/-- `ReceivedStatus['e-CF No Recibido']` of the `dgii-ecf` library. -/
def statusNoRecibido : String := "e-CF No Recibido"

/-- Events produced by `DGIIService.notifyOdoo` (dgiiService.ts lines
505-537): skipped entirely when no webhook URL is configured; on
failure the error is logged and swallowed. -/
def notifyOdooEvents (w : World) : List Event :=
  if w.config.odooWebhookUrl = "" then []
  else
    match w.odooResult with
    | Except.ok _ => [Event.odooNotify]
    | Except.error m => [Event.odooNotify, Event.logError ("Error notifying Odoo: " ++ m)]

/-- Result of `processReceivedEcf`: the signed acknowledgment XML and
its parsed form. -/
structure ProcessEcfResult where
  signedArecfXml : String
  arecfData : String
deriving Repr, DecidableEq

/-- Model of `DGIIService.processReceivedEcf` (dgiiService.ts lines
539-590): extract info, decide the acknowledgment status, generate the
ARECF from the received ECF, sign it, parse the signed XML back to
JSON, fire the Odoo notification without awaiting it, and return the
signed acknowledgment. -/
def processReceivedEcf (w : World) (ecfXml rncReceptor : String) (rnc : Option String)
    (accepted : Bool) (rejectCode : Option String) :
    Except AppError ProcessEcfResult × List Event :=
  let _info := w.extractInfo ecfXml
  let status := if accepted then statusRecibido else statusNoRecibido
  let code := if accepted then none else rejectCode
  let arecfXml := w.ecfFromXml ecfXml rncReceptor status code
  match signXmlSvc w arecfXml "ARECF" rnc with
  | (Except.error e, sev) =>
      (Except.error ⟨"Error processing received ECF: " ++ e.message, 500⟩, sev)
  | (Except.ok s, sev) =>
      (Except.ok ⟨s.signedXml, w.xml2json s.signedXml⟩, sev ++ notifyOdooEvents w)

/-- Parameters of `DGIIService.generateQRCode`. -/
structure QRParams where
  rncEmisor : String
  rncComprador : Option String := none
  encf : String
  montoTotal : Int
  securityCode : String
  fechaEmision : Option String := none
  fechaFirma : Option String := none
  environment : Option String := none
deriving Repr, DecidableEq

/-- `new Date().toISOString().split('T')[0]`. -/
def nowDatePart (iso : String) : String := (iso.splitOn "T").headD iso

/-- Model of `DGIIService.generateQRCode` (dgiiService.ts lines
630-691): the short-form consumption scheme is chosen by the
case-insensitive substring test `/E32/i.test(encf)`; otherwise the full
scheme is used, with both dates defaulted to the current time when
either is missing. -/
def generateQRCode (w : World) (p : QRParams) : QRUrl :=
  let env := getEnvironment w.config p.environment
  if hasE32 p.encf then
    QRUrl.fc p.rncEmisor p.encf p.montoTotal p.securityCode env
  else if strTruthy p.fechaEmision ∧ strTruthy p.fechaFirma then
    QRUrl.ecf p.rncEmisor (some (jsOrStr p.rncComprador "")) p.encf
      (some (toString p.montoTotal)) p.fechaEmision (p.fechaFirma.getD "")
      p.securityCode env
  else
    QRUrl.ecf p.rncEmisor (some (jsOrStr p.rncComprador "")) p.encf
      (some (toString p.montoTotal)) (some (nowDatePart w.nowIso)) w.nowIso
      p.securityCode env

/-! Trace predicates used by the temporal claims. -/

/-- Is this an authentication event? -/
def isAuthE : Event → Bool
  | Event.auth => true
  | _ => false

/-- Is this a signing event? -/
def isSignE : Event → Bool
  | Event.sign _ => true
  | _ => false

/-- Is this a submission event? -/
def isSubmitE : Event → Bool
  | Event.submit _ _ _ => true
  | _ => false

/-- Is this an Odoo-notification event? -/
def isNotifyE : Event → Bool
  | Event.odooNotify => true
  | _ => false

/-- No event satisfying `bad` occurs strictly before the first event
satisfying `gate` (vacuously true when `gate` never fires only if no
`bad` event occurs at all). -/
def noneBeforeFirst (bad gate : Event → Bool) : List Event → Bool
  | [] => true
  | e :: rest =>
      if gate e then true
      else if bad e then false
      else noneBeforeFirst bad gate rest

/-- No signing happens before the first authentication. -/
def noSignBeforeAuth (tr : List Event) : Bool := noneBeforeFirst isSignE isAuthE tr

/-- No submission happens before the first authentication. -/
def noSubmitBeforeAuth (tr : List Event) : Bool := noneBeforeFirst isSubmitE isAuthE tr

/-- If an authentication occurs, some signing occurred strictly before it. -/
def signPrecedesAuth (tr : List Event) : Bool := noneBeforeFirst isAuthE isSignE tr

/-- Whether an `Except` value is a success. -/
def exceptIsOk {ε α : Type} : Except ε α → Bool
  | Except.ok _ => true
  | Except.error _ => false

/-! A concrete world used for witnesses and counterexamples: every
collaborator succeeds and the pure primitives are simple injective
string builders. -/

/-- Concrete credential used by `wEx`. -/
def cEx : Certs := ⟨"KEY", "CERT"⟩

/-- A concrete world in which every collaborator succeeds. -/
def wEx : World :=
  { config := defaultConfig
    certs := fun _ => Except.ok cEx
    authResult := Except.ok ()
    signFn := fun _ xml dt => "SIG(" ++ dt ++ "|" ++ xml ++ ")"
    codeFn := fun s => "CODE(" ++ s ++ ")"
    ecf2xml := fun _ => "ECFXML"
    rfce2xml := fun _ => "RFCEXML"
    arecf2xml := fun _ => "ARECFXML"
    acecf2xml := fun _ => "ACECFXML"
    xml2json := fun s => "JSON(" ++ s ++ ")"
    ecfFromXml := fun _ _ _ _ => "ARECFGEN"
    extractInfo := fun _ =>
      { eNCF := "E310000000001", rncEmisor := "131793916", rncComprador := "101000001"
        fechaEmision := "2024-01-02", montoTotal := "11800" }
    sendDocResult := Except.ok ⟨some "TRACK1"⟩
    sendSummaryResult := Except.ok ⟨some "TRACK2"⟩
    sendApprovalResult := Except.ok ⟨some "TRACK3"⟩
    voidResult := Except.ok ⟨some "TRACK4"⟩
    odooResult := Except.ok ()
    nowIso := "2025-06-01T10:20:30.000Z"
    nowFmt := "01-06-2025 10:20:30" }

/-- The invoice header of the concrete example payload. -/
def encabEx : EncabezadoT :=
  { Version := some "1.0"
    IdDoc := some { eNCF := some "E310005000201" }
    Emisor := some { RNCEmisor := some "130862346", FechaEmision := some "2024-05-01" }
    Comprador := some { RNCComprador := some "101000001" }
    Totales := some { MontoTotal := some 11800 } }

/-- A concrete invoice payload whose header is present. -/
def invEx : InvoiceData := { ECF := some { Encabezado := some encabEx } }

/-- A concrete receipt payload with buyer RNC and document number present. -/
def detalleAcuseEx : DetalleAcuse :=
  { RNCComprador := some "101000001", eNCF := some "E310005000201" }

/-- A concrete receipt payload built from `detalleAcuseEx`. -/
def receiptEx : ReceiptData :=
  { ARECF := some { DetalleAcusedeRecibo := some detalleAcuseEx } }

/-- A rejected commercial approval with no rejection reason. -/
def rejNoReasonEx : AcecfInput :=
  ⟨"131793916", "E310000000001", "01-01-2024", 1000, "101000001", "2", none⟩

/-- Credential parsed from the Base64 blob in the counterexample setup. -/
def certBEx : Certs := ⟨"KEY-B64", "CERT-B64"⟩

/-- Credential parsed from the default certificate file. -/
def certFEx : Certs := ⟨"KEY-FILE", "CERT-FILE"⟩

/-- Configuration with both a certificate file path and a Base64 blob. -/
def cfgBothEx : Config := { defaultConfig with certificateBase64 := "QkFTRTY0" }

/-- Storage where the default certificate file exists and parses, and the
Base64 blob also parses (to a different credential). -/
def storBothEx : Storage :=
  ⟨[(defaultConfig.certificatePath, LoadResult.parsed certFEx)], LoadResult.parsed certBEx⟩

/-- Storage with only the default certificate file. -/
def storFileEx : Storage :=
  ⟨[(defaultConfig.certificatePath, LoadResult.parsed certFEx)], LoadResult.parseFail "no blob"⟩

/-- Storage with no certificate file at all. -/
def storMissingEx : Storage := ⟨[], LoadResult.parseFail "unused"⟩

/-- Storage whose default certificate file exists but cannot be parsed. -/
def storBadPassEx : Storage :=
  ⟨[(defaultConfig.certificatePath, LoadResult.parseFail "Invalid password or corrupt container")],
    LoadResult.parseFail "unused"⟩

/-- An empty certificate cache. -/
def emptyCache : CacheState := ⟨[]⟩

/-- `wEx` with an Odoo webhook URL configured. -/
def wOdooEx : World :=
  { wEx with config := { defaultConfig with odooWebhookUrl := "http://odoo.example/webhook" } }

/-- QR parameters whose document number contains `E32` in the middle but
is not prefixed with it, with both dates supplied. -/
def qrPEx : QRParams :=
  { rncEmisor := "131793916", encf := "E31E3200001", montoTotal := 100
    securityCode := "abc123", fechaEmision := some "2024-01-02"
    fechaFirma := some "2024-01-02T10:00:00Z" }

/-- The status code of a failed credential resolution, if any. -/
def errStatus : Except AppError Certs → Option Nat
  | Except.error e => some e.statusCode
  | Except.ok _ => none

/-- A `sendAcecf` request body for a rejected approval without a reason. -/
def acecfReqRejEx : AcecfRequest :=
  { rncEmisor := some "131793916", eNCF := some "E310000000001"
    fechaEmision := some "01-01-2024", montoTotal := some 1000
    rncComprador := some "101000001", estado := some "2" }

/-! ## Theorems -/

/-- C10: any provided environment tag other than `test`, `cert` and
`prod` resolves to the DEV environment (under any configuration for a
non-empty tag, and under the default configuration for every
unrecognized tag including the empty string, which JavaScript
truthiness treats as absent); an absent tag under the default
configuration also resolves to DEV; and environment resolution is
total — it always yields one of the three environments and never
fails. -/
theorem C10_environment_resolution (c : Config) (e : String) :
    (e ≠ "test" → e ≠ "cert" → e ≠ "prod" → e ≠ "" →
      getEnvironment c (some e) = ENVIRONMENT.DEV) ∧
    getEnvironment defaultConfig none = ENVIRONMENT.DEV ∧
    (∀ e2 : String, e2 ≠ "test" → e2 ≠ "cert" → e2 ≠ "prod" →
      getEnvironment defaultConfig (some e2) = ENVIRONMENT.DEV) ∧
    (∀ envO : Option String, getEnvironment c envO = ENVIRONMENT.DEV ∨
      getEnvironment c envO = ENVIRONMENT.CERT ∨
      getEnvironment c envO = ENVIRONMENT.PROD) := by
  refine ⟨?_, by decide, ?_, ?_⟩
  · intro h1 h2 h3 h4
    simp [getEnvironment, jsOrStr, strTruthy, h1, h2, h3, h4]
  · intro e2 h1 h2 h3
    by_cases he : e2 = ""
    · subst he
      decide
    · simp [getEnvironment, jsOrStr, strTruthy, h1, h2, h3, he]
  · intro envO
    unfold getEnvironment
    split_ifs <;> simp

/-- Witness for C10 at the concrete unrecognized tag `staging`. -/
theorem C10_environment_resolution_witness :
    getEnvironment defaultConfig (some "staging") = ENVIRONMENT.DEV :=
  (C10_environment_resolution defaultConfig "staging").1
    (by decide) (by decide) (by decide) (by decide)

/-- C5: for every supported document type tag, the security code that
`signXml` returns alongside the signed XML equals the code re-derived
from that signed XML by `getCodeSixDigitfromSignature` (modelled by
`codeFn`), and identical signed XML always yields an identical code:
the code is recomputed per call from the signed bytes and never cached
across documents. -/
theorem C5_security_code_rederivation (w : World) (xml1 xml2 dt1 dt2 : String)
    (rnc1 rnc2 : Option String) (o1 o2 : SignOut) (ev1 ev2 : List Event)
    (_hdt1 : dt1 ∈ ["ECF", "RFCE", "ARECF", "ACECF", "ANECF"])
    (h1 : signXmlSvc w xml1 dt1 rnc1 = (Except.ok o1, ev1))
    (h2 : signXmlSvc w xml2 dt2 rnc2 = (Except.ok o2, ev2)) :
    o1.securityCode = w.codeFn o1.signedXml ∧
    o2.securityCode = w.codeFn o2.signedXml ∧
    (o1.signedXml = o2.signedXml → o1.securityCode = o2.securityCode) := by
  unfold signXmlSvc at h1 h2
  rcases hc1 : w.certs rnc1 with e1 | c1 <;> rw [hc1] at h1
  · exact absurd h1 (by simp)
  rcases hc2 : w.certs rnc2 with e2 | c2 <;> rw [hc2] at h2
  · exact absurd h2 (by simp)
  simp only [Prod.mk.injEq, Except.ok.injEq] at h1 h2
  obtain ⟨ho1, -⟩ := h1
  obtain ⟨ho2, -⟩ := h2
  subst ho1
  subst ho2
  refine ⟨rfl, rfl, fun hs => ?_⟩
  simpa using congrArg w.codeFn hs

/-- Witness for C5 at a concrete world and two concrete documents. -/
theorem C5_security_code_rederivation_witness :
    (signXmlSvc wEx "<ECF>a</ECF>" "ECF" (some "130862346")).1 =
      Except.ok ⟨"SIG(ECF|<ECF>a</ECF>)", "CODE(SIG(ECF|<ECF>a</ECF>))"⟩ ∧
    (⟨"SIG(ECF|<ECF>a</ECF>)", "CODE(SIG(ECF|<ECF>a</ECF>))"⟩ : SignOut).securityCode =
      wEx.codeFn "SIG(ECF|<ECF>a</ECF>)" := by
  refine ⟨rfl, ?_⟩
  exact (C5_security_code_rederivation wEx "<ECF>a</ECF>" "<RFCE>b</RFCE>" "ECF" "RFCE"
    (some "130862346") none
    ⟨"SIG(ECF|<ECF>a</ECF>)", "CODE(SIG(ECF|<ECF>a</ECF>))"⟩
    ⟨"SIG(RFCE|<RFCE>b</RFCE>)", "CODE(SIG(RFCE|<RFCE>b</RFCE>))"⟩
    _ _ (by simp) rfl rfl).1

/-- C3: resolving a credential that is not yet cached performs exactly
one load of the underlying material, stores the parsed credential in
the cache before returning, and a second resolution for the same tax ID
returns the identical in-memory credential with no further load and no
state change. -/
theorem C3_credential_cache (config : Config) (storage : Storage) (st : CacheState)
    (rnc : Option String) (c : Certs) (st2 : CacheState) (ev : List LoadEvent)
    (hmiss : st.certificates.lookup (cacheKeyOf rnc) = none)
    (hfirst : getCertificate config storage st rnc = ⟨Except.ok c, st2, ev⟩) :
    ev.length = 1 ∧
    st2.certificates.lookup (cacheKeyOf rnc) = some c ∧
    getCertificate config storage st2 rnc = ⟨Except.ok c, st2, []⟩ := by
  have hload : loadFresh config storage st rnc = ⟨Except.ok c, st2, ev⟩ := by
    simpa [getCertificate, hmiss] using hfirst
  unfold loadFresh at hload
  by_cases hb : config.certificateBase64 ≠ "" ∧ strTruthy rnc = false
  · rw [if_pos hb] at hload
    rcases hp : storage.base64Parse with c0 | m <;> rw [hp] at hload
    · simp only [GetCertOut.mk.injEq, Except.ok.injEq] at hload
      obtain ⟨hc0, hst2, hev⟩ := hload
      subst hc0
      subst hst2
      subst hev
      refine ⟨rfl, ?_, ?_⟩
      · simp [List.lookup]
      · simp [getCertificate, List.lookup]
    · simp at hload
  · rw [if_neg hb] at hload
    rcases hf : storage.files.lookup (certPathOf config rnc) with _ | lr <;>
      rw [hf] at hload
    · simp at hload
    · rcases lr with c0 | m
      · simp only [GetCertOut.mk.injEq, Except.ok.injEq] at hload
        obtain ⟨hc0, hst2, hev⟩ := hload
        subst hc0
        subst hst2
        subst hev
        refine ⟨rfl, ?_, ?_⟩
        · simp [List.lookup]
        · simp [getCertificate, List.lookup]
      · simp at hload

/-- Witness for C3: first resolution from an empty cache loads the
default certificate file once, then hits the cache. -/
theorem C3_credential_cache_witness :
    (getCertificate defaultConfig storFileEx emptyCache none =
      ⟨Except.ok certFEx, ⟨[("default", certFEx)]⟩,
        [LoadEvent.fromFile defaultConfig.certificatePath]⟩) ∧
    ([LoadEvent.fromFile defaultConfig.certificatePath].length = 1 ∧
      (CacheState.mk [("default", certFEx)]).certificates.lookup
        (cacheKeyOf none) = some certFEx ∧
      getCertificate defaultConfig storFileEx ⟨[("default", certFEx)]⟩ none =
        ⟨Except.ok certFEx, ⟨[("default", certFEx)]⟩, []⟩) := by
  refine ⟨by decide, ?_⟩
  exact C3_credential_cache defaultConfig storFileEx emptyCache none certFEx
    ⟨[("default", certFEx)]⟩ [LoadEvent.fromFile defaultConfig.certificatePath]
    (by decide) (by decide)

/-- C4 counterexample: with both a certificate file path and a Base64
blob configured and no tax ID requested, resolution loads from the
Base64 blob — not from the file path, although the default file exists
and parses to a different credential. -/
theorem C4_counterexample_blob_preferred :
    (getCertificate cfgBothEx storBothEx emptyCache none).result = Except.ok certBEx ∧
    (getCertificate cfgBothEx storBothEx emptyCache none).events = [LoadEvent.fromBase64] ∧
    certBEx ≠ certFEx ∧
    storBothEx.files.lookup cfgBothEx.certificatePath = some (LoadResult.parsed certFEx) := by
  decide

/-- C4 amended: when both sources are configured, a request without a
tax ID loads from the Base64 blob in preference to the file path, and a
request that specifies a (truthy) tax ID always loads that tenant's
file from disk, never the blob. -/
theorem C4_amended_source_selection (config : Config) (storage : Storage)
    (st : CacheState) :
    (config.certificateBase64 ≠ "" →
      st.certificates.lookup "default" = none →
      (getCertificate config storage st none).events = [LoadEvent.fromBase64]) ∧
    (∀ r : String, r ≠ "" →
      ∀ e ∈ (getCertificate config storage st (some r)).events,
        e = LoadEvent.fromFile (tenantPath config r)) := by
  constructor
  · intro hb hmiss
    have hkey : cacheKeyOf none = "default" := rfl
    have hload : (getCertificate config storage st none).events =
        (loadFresh config storage st none).events := by
      simp [getCertificate, hkey, hmiss]
    rw [hload]
    unfold loadFresh
    rw [if_pos ⟨hb, rfl⟩]
    cases storage.base64Parse <;> rfl
  · intro r hr e he
    have htr : strTruthy (some r) = true := by simp [strTruthy, hr]
    have hpath : certPathOf config (some r) = tenantPath config r := by
      simp [certPathOf, htr]
    rcases hl : st.certificates.lookup (cacheKeyOf (some r)) with _ | c
    · have hload : e ∈ (loadFresh config storage st (some r)).events := by
        simpa [getCertificate, hl] using he
      unfold loadFresh at hload
      rw [if_neg (by simp [htr])] at hload
      rw [hpath] at hload
      rcases hf : storage.files.lookup (tenantPath config r) with _ | lr <;>
        rw [hf] at hload
      · simp at hload
      · cases lr <;> simpa using hload
    · simp [getCertificate, hl] at he

/-- Witness for C4 amended: a tenant request with a Base64 blob
configured still loads the tenant file from disk. -/
theorem C4_amended_source_selection_witness :
    (getCertificate cfgBothEx storBothEx emptyCache none).events = [LoadEvent.fromBase64] ∧
    (∀ e ∈ (getCertificate cfgBothEx storBothEx emptyCache (some "130862346")).events,
      e = LoadEvent.fromFile (tenantPath cfgBothEx "130862346")) :=
  ⟨(C4_amended_source_selection cfgBothEx storBothEx emptyCache).1 (by decide) (by decide),
    (C4_amended_source_selection cfgBothEx storBothEx emptyCache).2 "130862346" (by decide)⟩

/-- C9 counterexample: the missing-material failure and the
unparseable-material failure both surface to the caller as the same
error kind — an `AppError` with status code 500 whose message carries
the generic `Error loading certificate: ` wrapper; the internal 404
constructed for the missing file is re-wrapped by the catch-all and is
not observable as a distinct `CredentialNotFound` kind. -/
theorem C9_counterexample_same_error_kind :
    (getCertificate defaultConfig storMissingEx emptyCache none).result =
      Except.error
        ⟨"Error loading certificate: " ++ ("Certificate not found for RNC: " ++ "default"),
          500⟩ ∧
    (getCertificate defaultConfig storBadPassEx emptyCache none).result =
      Except.error
        ⟨"Error loading certificate: " ++ "Invalid password or corrupt container", 500⟩ ∧
    errStatus (getCertificate defaultConfig storMissingEx emptyCache none).result =
      errStatus (getCertificate defaultConfig storBadPassEx emptyCache none).result := by
  decide

/-- C9 amended: both credential-resolution failure modes (no material
found, and material that cannot be parsed) surface to the caller as a
single error kind: an `AppError` with status code 500 whose message is
prefixed `Error loading certificate: `; the two modes are
distinguishable only by the remainder of the message text, not by a
distinct error kind or status code. -/
theorem C9_amended_single_error_kind (config : Config) (storage : Storage)
    (st : CacheState) (rnc : Option String) (e : AppError)
    (herr : (getCertificate config storage st rnc).result = Except.error e) :
    e.statusCode = 500 ∧ ∃ rest, e.message = "Error loading certificate: " ++ rest := by
  rcases hl : st.certificates.lookup (cacheKeyOf rnc) with _ | c
  · have hload : (loadFresh config storage st rnc).result = Except.error e := by
      simpa [getCertificate, hl] using herr
    unfold loadFresh at hload
    by_cases hb : config.certificateBase64 ≠ "" ∧ strTruthy rnc = false
    · rw [if_pos hb] at hload
      rcases hp : storage.base64Parse with c0 | m <;> rw [hp] at hload
      · simp at hload
      · simp only [Except.error.injEq] at hload
        subst hload
        exact ⟨rfl, m, rfl⟩
    · rw [if_neg hb] at hload
      rcases hf : storage.files.lookup (certPathOf config rnc) with _ | lr <;>
        rw [hf] at hload
      · simp only [Except.error.injEq] at hload
        subst hload
        exact ⟨rfl, _, rfl⟩
      · rcases lr with c0 | m
        · simp at hload
        · simp only [Except.error.injEq] at hload
          subst hload
          exact ⟨rfl, m, rfl⟩
  · simp [getCertificate, hl] at herr

/-- Witness for C9 amended, applied at the concrete missing-file call. -/
theorem C9_amended_single_error_kind_witness :
    (getCertificate defaultConfig storMissingEx emptyCache none).result =
      Except.error
        ⟨"Error loading certificate: " ++ ("Certificate not found for RNC: " ++ "default"),
          500⟩ ∧
    (AppError.mk
        ("Error loading certificate: " ++ ("Certificate not found for RNC: " ++ "default"))
        500).statusCode = 500 ∧
    ∃ rest,
      (AppError.mk
          ("Error loading certificate: " ++ ("Certificate not found for RNC: " ++ "default"))
          500).message = "Error loading certificate: " ++ rest := by
  refine ⟨by decide, ?_⟩
  exact C9_amended_single_error_kind defaultConfig storMissingEx emptyCache none _ (by decide)

/-- C7 counterexample: a document number that merely contains `E32` in
its interior (prefix `E31`) is routed to the short-form consumption
(FC) scheme even though issue and signing dates are supplied, so the
short-form scheme is not selected only for `E32`-prefixed numbers. -/
theorem C7_counterexample_contains_not_prefix :
    generateQRCode wEx qrPEx =
      QRUrl.fc "131793916" "E31E3200001" 100 "abc123" ENVIRONMENT.DEV ∧
    strStarts "E32" "E31E3200001" = false := by
  decide

/-- C7 amended: the QR generator selects the short-form (FC) scheme if
and only if the document number contains `E32` (case-insensitively,
anywhere — not only as a prefix), even when issue and signing dates are
supplied; every other document number uses the full (ECF) scheme, which
takes the supplied issue and signing timestamps when both are truthy
and otherwise replaces both with the current time. -/
theorem C7_amended_scheme_selection (w : World) (p : QRParams) :
    (hasE32 p.encf = true →
      generateQRCode w p =
        QRUrl.fc p.rncEmisor p.encf p.montoTotal p.securityCode
          (getEnvironment w.config p.environment)) ∧
    (hasE32 p.encf = false →
      strTruthy p.fechaEmision = true → strTruthy p.fechaFirma = true →
      generateQRCode w p =
        QRUrl.ecf p.rncEmisor (some (jsOrStr p.rncComprador "")) p.encf
          (some (toString p.montoTotal)) p.fechaEmision (p.fechaFirma.getD "")
          p.securityCode (getEnvironment w.config p.environment)) ∧
    (hasE32 p.encf = false →
      ¬ (strTruthy p.fechaEmision = true ∧ strTruthy p.fechaFirma = true) →
      generateQRCode w p =
        QRUrl.ecf p.rncEmisor (some (jsOrStr p.rncComprador "")) p.encf
          (some (toString p.montoTotal)) (some (nowDatePart w.nowIso)) w.nowIso
          p.securityCode (getEnvironment w.config p.environment)) := by
  refine ⟨?_, ?_, ?_⟩
  · intro h1
    unfold generateQRCode
    rw [if_pos h1]
  · intro h1 h2 h3
    unfold generateQRCode
    rw [if_neg (by simp [h1]), if_pos ⟨h2, h3⟩]
  · intro h1 h2
    unfold generateQRCode
    rw [if_neg (by simp [h1]), if_neg h2]

/-- Witness for C7 amended: a non-consumption document number with both
dates supplied uses the full scheme with those dates. -/
theorem C7_amended_scheme_selection_witness :
    generateQRCode wEx
      { rncEmisor := "130862346", encf := "E310005000201", montoTotal := 11800
        securityCode := "abc123", fechaEmision := some "2024-05-01"
        fechaFirma := some "2024-05-01T12:00:00Z" } =
      QRUrl.ecf "130862346" (some "") "E310005000201" (some "11800")
        (some "2024-05-01") "2024-05-01T12:00:00Z" "abc123" ENVIRONMENT.DEV :=
  (C7_amended_scheme_selection wEx
      { rncEmisor := "130862346", encf := "E310005000201", montoTotal := 11800
        securityCode := "abc123", fechaEmision := some "2024-05-01"
        fechaFirma := some "2024-05-01T12:00:00Z" }).2.1
    (by decide) (by decide) (by decide)

/-- C8: the value returned by `processReceivedEcf` is the same for
every outcome of the asynchronous Odoo notification (failure is never
propagated and never changes the returned acknowledgment), the
notification is attempted at most once (never retried), and whenever
the credential resolves the call returns the signed ARECF
acknowledgment built from the received document. -/
theorem C8_ack_independent_of_odoo (w : World) (ecfXml rncReceptor : String)
    (rnc : Option String) (accepted : Bool) (rejectCode : Option String)
    (o1 o2 : Except String Unit) :
    (processReceivedEcf { w with odooResult := o1 } ecfXml rncReceptor rnc accepted
        rejectCode).1 =
      (processReceivedEcf { w with odooResult := o2 } ecfXml rncReceptor rnc accepted
        rejectCode).1 ∧
    ((processReceivedEcf { w with odooResult := o1 } ecfXml rncReceptor rnc accepted
        rejectCode).2.filter isNotifyE).length ≤ 1 ∧
    (∀ c : Certs, w.certs rnc = Except.ok c →
      (processReceivedEcf { w with odooResult := o1 } ecfXml rncReceptor rnc accepted
          rejectCode).1 =
        Except.ok
          ⟨w.signFn c
              (w.ecfFromXml ecfXml rncReceptor
                (if accepted then statusRecibido else statusNoRecibido)
                (if accepted then none else rejectCode)) "ARECF",
            w.xml2json
              (w.signFn c
                (w.ecfFromXml ecfXml rncReceptor
                  (if accepted then statusRecibido else statusNoRecibido)
                  (if accepted then none else rejectCode)) "ARECF")⟩) := by
  rcases hc : w.certs rnc with e | c
  · refine ⟨?_, ?_, ?_⟩
    · simp [processReceivedEcf, signXmlSvc, hc]
    · simp [processReceivedEcf, signXmlSvc, hc, isNotifyE]
    · intro c hok
      exact absurd hok (by simp)
  · refine ⟨?_, ?_, ?_⟩
    · simp [processReceivedEcf, signXmlSvc, hc]
    · by_cases hurl : w.config.odooWebhookUrl = "" <;>
        rcases o1 with m | u <;>
        simp [processReceivedEcf, signXmlSvc, hc, notifyOdooEvents, hurl, isNotifyE]
    · intro c2 hok
      obtain rfl : c = c2 := by simpa using hok
      simp [processReceivedEcf, signXmlSvc, hc]

/-- Witness for C8: with an Odoo webhook configured, a failing
notification yields the same successful acknowledgment as a succeeding
one. -/
theorem C8_ack_independent_of_odoo_witness :
    (processReceivedEcf { wOdooEx with odooResult := Except.error "odoo down" }
        "<ECF>x</ECF>" "101000001" none true none).1 =
      (processReceivedEcf { wOdooEx with odooResult := Except.ok () }
        "<ECF>x</ECF>" "101000001" none true none).1 ∧
    (processReceivedEcf { wOdooEx with odooResult := Except.error "odoo down" }
        "<ECF>x</ECF>" "101000001" none true none).1 =
      Except.ok ⟨"SIG(ARECF|ARECFGEN)", "JSON(SIG(ARECF|ARECFGEN))"⟩ := by
  refine ⟨(C8_ack_independent_of_odoo wOdooEx "<ECF>x</ECF>" "101000001" none true none
      (Except.error "odoo down") (Except.ok ())).1, ?_⟩
  exact (C8_ack_independent_of_odoo wOdooEx "<ECF>x</ECF>" "101000001" none true none
      (Except.error "odoo down") (Except.ok ())).2.2 cEx rfl

/-- C1: for every consumption-invoice payload whose `ECF.Encabezado` is
present, `sendSummaryWithEcf` (when the collaborators succeed) returns
the fully signed ECF invoice for local archival together with a signed
RFCE summary that is submitted to the authority via `sendSummary`, and
the summary's `CodigoSeguridadeCF` field equals the verification code
obtained by signing the full invoice — not an independently generated
code. -/
theorem C1_summary_with_ecf_links_codes (w : World) (ecfData : InvoiceData)
    (rnc encf : String) (envO : Option String) (c : Certs) (h : EncabezadoT)
    (resp : DgiiResponse)
    (hc : w.certs (some rnc) = Except.ok c)
    (ha : w.authResult = Except.ok ())
    (hs : w.sendSummaryResult = Except.ok resp)
    (hh : ecfEncab ecfData = some h) :
    ∃ r tr, sendSummaryWithEcf w ecfData rnc encf envO = (Except.ok r, tr) ∧
      r.signedEcfXml = w.signFn c (w.ecf2xml ecfData) "ECF" ∧
      r.ecfSecurityCode = w.codeFn r.signedEcfXml ∧
      r.signedRfceXml =
        w.signFn c (w.rfce2xml (buildRfce h rnc encf r.ecfSecurityCode)) "RFCE" ∧
      (buildRfce h rnc encf r.ecfSecurityCode).RFCE.Encabezado.CodigoSeguridadeCF =
        r.ecfSecurityCode ∧
      Event.submit "sendSummary" r.signedRfceXml (rnc ++ encf ++ ".xml") ∈ tr := by
  have heq : sendSummaryWithEcf w ecfData rnc encf envO =
      (Except.ok
        ⟨resp, w.signFn c (w.ecf2xml ecfData) "ECF",
          w.signFn c
            (w.rfce2xml (buildRfce h rnc encf
              (w.codeFn (w.signFn c (w.ecf2xml ecfData) "ECF")))) "RFCE",
          w.codeFn (w.signFn c (w.ecf2xml ecfData) "ECF"),
          w.codeFn
            (w.signFn c
              (w.rfce2xml (buildRfce h rnc encf
                (w.codeFn (w.signFn c (w.ecf2xml ecfData) "ECF")))) "RFCE"),
          QRUrl.fc rnc encf (jsOrInt (h.Totales.bind (fun t => t.MontoTotal)) 0)
            (w.codeFn (w.signFn c (w.ecf2xml ecfData) "ECF"))
            (getEnvironment w.config envO)⟩,
        [Event.getCert (some rnc), Event.auth, Event.getCert (some rnc), Event.sign "ECF",
          Event.getCert (some rnc), Event.sign "RFCE",
          Event.submit "sendSummary"
            (w.signFn c
              (w.rfce2xml (buildRfce h rnc encf
                (w.codeFn (w.signFn c (w.ecf2xml ecfData) "ECF")))) "RFCE")
            (rnc ++ encf ++ ".xml")]) := by
    simp [sendSummaryWithEcf, signXmlSvc, hc, ha, hh, hs]
  exact ⟨_, _, heq, rfl, rfl, rfl, rfl, by simp⟩

/-- Witness for C1 at the concrete world and invoice. -/
theorem C1_summary_with_ecf_links_codes_witness :
    ecfEncab invEx = some encabEx ∧
    (∃ r tr,
      sendSummaryWithEcf wEx invEx "130862346" "E310005000201" none = (Except.ok r, tr) ∧
      r.signedEcfXml = wEx.signFn cEx (wEx.ecf2xml invEx) "ECF" ∧
      r.ecfSecurityCode = wEx.codeFn r.signedEcfXml ∧
      r.signedRfceXml =
        wEx.signFn cEx
          (wEx.rfce2xml (buildRfce encabEx "130862346" "E310005000201" r.ecfSecurityCode))
          "RFCE" ∧
      (buildRfce encabEx "130862346" "E310005000201"
          r.ecfSecurityCode).RFCE.Encabezado.CodigoSeguridadeCF = r.ecfSecurityCode ∧
      Event.submit "sendSummary" r.signedRfceXml ("130862346" ++ "E310005000201" ++ ".xml")
        ∈ tr) :=
  ⟨rfl,
    C1_summary_with_ecf_links_codes wEx invEx "130862346" "E310005000201" none cEx encabEx
      ⟨some "TRACK2"⟩ rfl rfl rfl rfl⟩

/-- C6 counterexample: a rejected commercial approval (estado `2`)
without a rejection reason passed through the `sendApproval` entry
point — and through `sendCommercialApproval` — is signed and submitted
to the authority without any validation failure, so rejection-reason
validation does not hold for every commercial-approval entry point of
the service. -/
theorem C6_counterexample_reasonless_rejection_sent :
    rejNoReasonEx.estado = "2" ∧ rejNoReasonEx.detalleMotivoRechazo = none ∧
    ((sendApproval wEx (generateAcecfXml wEx) rejNoReasonEx "ACECF.xml" none none).2.filter
        isSignE).length = 1 ∧
    ((sendApproval wEx (generateAcecfXml wEx) rejNoReasonEx "ACECF.xml" none none).2.filter
        isSubmitE).length = 1 ∧
    exceptIsOk
      (sendApproval wEx (generateAcecfXml wEx) rejNoReasonEx "ACECF.xml" none none).1 =
      true ∧
    ((sendCommercialApproval wEx rejNoReasonEx none none).2.filter isSignE).length = 1 ∧
    ((sendCommercialApproval wEx rejNoReasonEx none none).2.filter isSubmitE).length = 1 ∧
    exceptIsOk (sendCommercialApproval wEx rejNoReasonEx none none).1 = true := by
  decide

/-- C6 amended: only the structured ACECF controller entry points
(`sendAcecf` and `processAcecfFromEcf`) reject a rejected approval
without a reason — with a 400 validation failure and an empty event
trace, before any signing, authentication or network call; the raw
`sendApproval` entry point and the service method
`sendCommercialApproval` perform no such validation and sign and submit
a reasonless rejection, simply omitting the reason element. -/
theorem C6_amended_validation_location (w : World) (req : AcecfRequest)
    (ecfXml motivo rnc2 env2 : Option String) (d : AcecfInput) (c : Certs)
    (resp : DgiiResponse) :
    (req.estado = some "2" → strTruthy req.detalleMotivoRechazo = false →
      (sendAcecfCtrl w req).2 = [] ∧
      ∃ e, (sendAcecfCtrl w req).1 = Except.error e ∧ e.status = 400) ∧
    (∀ estado2 : Option String, estado2 = some "2" → strTruthy motivo = false →
      (processAcecfFromEcfCtrl w ecfXml estado2 motivo rnc2 env2).2 = [] ∧
      ∃ e, (processAcecfFromEcfCtrl w ecfXml estado2 motivo rnc2 env2).1 =
        Except.error e ∧ e.status = 400) ∧
    (d.estado = "2" → d.detalleMotivoRechazo = none →
      (buildAcecfDetalle w.nowFmt d).DetalleMotivoRechazo = none ∧
      (w.certs rnc2 = Except.ok c → w.sendApprovalResult = Except.ok resp →
        Event.sign "ACECF" ∈ (sendCommercialApproval w d rnc2 env2).2 ∧
        ∃ p f, Event.submit "sendCommercialApproval" p f ∈
          (sendCommercialApproval w d rnc2 env2).2)) := by
  refine ⟨?_, ?_, ?_⟩
  · intro hestado hreason
    unfold sendAcecfCtrl
    by_cases h1 : strTruthy req.rncEmisor = false ∨ strTruthy req.eNCF = false ∨
        strTruthy req.fechaEmision = false ∨ req.montoTotal = none ∨
        strTruthy req.rncComprador = false ∨ strTruthy req.estado = false
    · rw [if_pos h1]
      exact ⟨rfl, _, rfl, rfl⟩
    · rw [if_neg h1, if_neg (by simp [hestado]), if_pos ⟨hestado, hreason⟩]
      exact ⟨rfl, _, rfl, rfl⟩
  · intro estado2 hestado hreason
    unfold processAcecfFromEcfCtrl
    by_cases h1 : strTruthy ecfXml = false ∨ strTruthy estado2 = false
    · rw [if_pos h1]
      exact ⟨rfl, _, rfl, rfl⟩
    · rw [if_neg h1, if_neg (by simp [hestado]), if_pos ⟨hestado, hreason⟩]
      exact ⟨rfl, _, rfl, rfl⟩
  · intro _hestado hreason
    refine ⟨by simp [buildAcecfDetalle, hreason], ?_⟩
    intro hc hs
    constructor
    · simp [sendCommercialApproval, signXmlSvc, hc, hs]
    · refine ⟨w.signFn c (generateAcecfXml w d) "ACECF",
        "ACECF_" ++ d.rncComprador ++ "_" ++ d.eNCF ++ ".xml", ?_⟩
      simp [sendCommercialApproval, signXmlSvc, hc, hs]

/-- Witness for C6 amended at a concrete reasonless-rejection request
against both validating controller entry points. -/
theorem C6_amended_validation_location_witness :
    ((sendAcecfCtrl wEx acecfReqRejEx).2 = [] ∧
      ∃ e, (sendAcecfCtrl wEx acecfReqRejEx).1 = Except.error e ∧ e.status = 400) ∧
    ((processAcecfFromEcfCtrl wEx (some "<ECF>x</ECF>") (some "2") none none none).2 = [] ∧
      ∃ e, (processAcecfFromEcfCtrl wEx (some "<ECF>x</ECF>") (some "2") none none
          none).1 = Except.error e ∧ e.status = 400) := by
  obtain ⟨h1, h2, _h3⟩ := C6_amended_validation_location wEx acecfReqRejEx
    (some "<ECF>x</ECF>") none none none rejNoReasonEx cEx ⟨some "TRACK3"⟩
  exact ⟨h1 rfl rfl, h2 (some "2") rfl rfl⟩

/-- C2 counterexample: in `sendInvoice` — an outbound submission
operation — authentication happens strictly before signing: the trace
contains both an authentication and a signing event, yet no signing
event precedes the first authentication, refuting the claim that
signing happens before authentication in every outbound submission
operation. -/
theorem C2_counterexample_auth_before_sign :
    signPrecedesAuth (sendInvoice wEx invEx "130862346" "E310005000201" none).2 = false ∧
    ((sendInvoice wEx invEx "130862346" "E310005000201" none).2.filter isSignE).length = 1 ∧
    ((sendInvoice wEx invEx "130862346" "E310005000201" none).2.filter isAuthE).length = 1 := by
  decide

/-- C2 amended: every outbound submission operation performs an
authenticate-then-submit sequence (no submission event ever precedes
the first authentication).  In `sendInvoice`, `sendSummary`,
`sendSummaryWithEcf`, `sendApproval` and `voidSequence`, authentication
precedes signing, so an authentication failure short-circuits before
any signing work is performed (the trace of an auth-failing call
contains no signing event).  Only `sendReceipt` signs before
authenticating, and there the already-signed bytes are reused: the
submitted payload is exactly the signed XML returned with the result. -/
theorem C2_amended_auth_then_submit {α β : Type} (w : World) (inv1 inv2 inv3 : InvoiceData)
    (rd : ReceiptData) (serA : α → String) (a : α) (serB : β → String) (b : β)
    (rnc encf fn1 fn2 : String) (orc : Option String) (envO : Option String) :
    noSignBeforeAuth (sendInvoice w inv1 rnc encf envO).2 = true ∧
    noSubmitBeforeAuth (sendInvoice w inv1 rnc encf envO).2 = true ∧
    noSignBeforeAuth (sendSummary w inv2 rnc encf envO).2 = true ∧
    noSubmitBeforeAuth (sendSummary w inv2 rnc encf envO).2 = true ∧
    noSignBeforeAuth (sendSummaryWithEcf w inv3 rnc encf envO).2 = true ∧
    noSubmitBeforeAuth (sendSummaryWithEcf w inv3 rnc encf envO).2 = true ∧
    noSignBeforeAuth (sendApproval w serA a fn1 orc envO).2 = true ∧
    noSubmitBeforeAuth (sendApproval w serA a fn1 orc envO).2 = true ∧
    noSignBeforeAuth (voidSequence w serB b fn2 orc envO).2 = true ∧
    noSubmitBeforeAuth (voidSequence w serB b fn2 orc envO).2 = true ∧
    signPrecedesAuth (sendReceipt w rd orc envO).2 = true ∧
    noSubmitBeforeAuth (sendReceipt w rd orc envO).2 = true ∧
    (∀ m, w.authResult = Except.error m →
      (sendInvoice w inv1 rnc encf envO).2.filter isSignE = [] ∧
      (sendSummary w inv2 rnc encf envO).2.filter isSignE = [] ∧
      (sendSummaryWithEcf w inv3 rnc encf envO).2.filter isSignE = [] ∧
      (sendApproval w serA a fn1 orc envO).2.filter isSignE = [] ∧
      (voidSequence w serB b fn2 orc envO).2.filter isSignE = []) ∧
    (∀ r tr, sendReceipt w rd orc envO = (Except.ok r, tr) →
      Event.submit "sendElectronicDocument" r.signedXml r.fileName ∈ tr) := by
  refine ⟨?_, ?_, ?_, ?_, ?_, ?_, ?_, ?_, ?_, ?_, ?_, ?_, ?_, ?_⟩
  · rcases hc : w.certs (some rnc) with e | c <;>
      rcases ha : w.authResult with m | u <;>
      rcases hd : w.sendDocResult with m2 | r2 <;>
      simp [sendInvoice, signXmlSvc, hc, ha, hd, noSignBeforeAuth, noneBeforeFirst,
        isAuthE, isSignE, isSubmitE]
  · rcases hc : w.certs (some rnc) with e | c <;>
      rcases ha : w.authResult with m | u <;>
      rcases hd : w.sendDocResult with m2 | r2 <;>
      simp [sendInvoice, signXmlSvc, hc, ha, hd, noSubmitBeforeAuth, noneBeforeFirst,
        isAuthE, isSignE, isSubmitE]
  · rcases hc : w.certs (some rnc) with e | c <;>
      rcases ha : w.authResult with m | u <;>
      rcases hd : w.sendSummaryResult with m2 | r2 <;>
      simp [sendSummary, signXmlSvc, hc, ha, hd, noSignBeforeAuth, noneBeforeFirst,
        isAuthE, isSignE, isSubmitE]
  · rcases hc : w.certs (some rnc) with e | c <;>
      rcases ha : w.authResult with m | u <;>
      rcases hd : w.sendSummaryResult with m2 | r2 <;>
      simp [sendSummary, signXmlSvc, hc, ha, hd, noSubmitBeforeAuth, noneBeforeFirst,
        isAuthE, isSignE, isSubmitE]
  · rcases hc : w.certs (some rnc) with e | c <;>
      rcases ha : w.authResult with m | u <;>
      rcases he : ecfEncab inv3 with _ | h <;>
      rcases hd : w.sendSummaryResult with m2 | r2 <;>
      simp [sendSummaryWithEcf, signXmlSvc, hc, ha, he, hd, noSignBeforeAuth,
        noneBeforeFirst, isAuthE, isSignE, isSubmitE]
  · rcases hc : w.certs (some rnc) with e | c <;>
      rcases ha : w.authResult with m | u <;>
      rcases he : ecfEncab inv3 with _ | h <;>
      rcases hd : w.sendSummaryResult with m2 | r2 <;>
      simp [sendSummaryWithEcf, signXmlSvc, hc, ha, he, hd, noSubmitBeforeAuth,
        noneBeforeFirst, isAuthE, isSignE, isSubmitE]
  · rcases hc : w.certs orc with e | c <;>
      rcases ha : w.authResult with m | u <;>
      rcases hd : w.sendApprovalResult with m2 | r2 <;>
      simp [sendApproval, signXmlSvc, hc, ha, hd, noSignBeforeAuth, noneBeforeFirst,
        isAuthE, isSignE, isSubmitE]
  · rcases hc : w.certs orc with e | c <;>
      rcases ha : w.authResult with m | u <;>
      rcases hd : w.sendApprovalResult with m2 | r2 <;>
      simp [sendApproval, signXmlSvc, hc, ha, hd, noSubmitBeforeAuth, noneBeforeFirst,
        isAuthE, isSignE, isSubmitE]
  · rcases hc : w.certs orc with e | c <;>
      rcases ha : w.authResult with m | u <;>
      rcases hd : w.voidResult with m2 | r2 <;>
      simp [voidSequence, signXmlSvc, hc, ha, hd, noSignBeforeAuth, noneBeforeFirst,
        isAuthE, isSignE, isSubmitE]
  · rcases hc : w.certs orc with e | c <;>
      rcases ha : w.authResult with m | u <;>
      rcases hd : w.voidResult with m2 | r2 <;>
      simp [voidSequence, signXmlSvc, hc, ha, hd, noSubmitBeforeAuth, noneBeforeFirst,
        isAuthE, isSignE, isSubmitE]
  · by_cases hv :
        strTruthy ((rd.ARECF.bind (fun x => x.DetalleAcusedeRecibo)).bind
          (fun x => x.RNCComprador)) = false ∨
        strTruthy ((rd.ARECF.bind (fun x => x.DetalleAcusedeRecibo)).bind
          (fun x => x.eNCF)) = false <;>
      rcases hc : w.certs orc with e | c <;>
      rcases ha : w.authResult with m | u <;>
      rcases hd : w.sendDocResult with m2 | r2 <;>
      simp [sendReceipt, signXmlSvc, hv, hc, ha, hd, signPrecedesAuth, noneBeforeFirst,
        isAuthE, isSignE, isSubmitE]
  · by_cases hv :
        strTruthy ((rd.ARECF.bind (fun x => x.DetalleAcusedeRecibo)).bind
          (fun x => x.RNCComprador)) = false ∨
        strTruthy ((rd.ARECF.bind (fun x => x.DetalleAcusedeRecibo)).bind
          (fun x => x.eNCF)) = false <;>
      rcases hc : w.certs orc with e | c <;>
      rcases ha : w.authResult with m | u <;>
      rcases hd : w.sendDocResult with m2 | r2 <;>
      simp [sendReceipt, signXmlSvc, hv, hc, ha, hd, noSubmitBeforeAuth, noneBeforeFirst,
        isAuthE, isSignE, isSubmitE]
  · intro m ha
    rcases hc1 : w.certs (some rnc) with e | c <;>
      rcases hc2 : w.certs orc with e2 | c2 <;>
      rcases he : ecfEncab inv3 with _ | h <;>
      simp [sendInvoice, sendSummary, sendSummaryWithEcf, sendApproval, voidSequence,
        signXmlSvc, hc1, hc2, he, ha, isSignE]
  · intro r tr hk
    by_cases hv :
        strTruthy ((rd.ARECF.bind (fun x => x.DetalleAcusedeRecibo)).bind
          (fun x => x.RNCComprador)) = false ∨
        strTruthy ((rd.ARECF.bind (fun x => x.DetalleAcusedeRecibo)).bind
          (fun x => x.eNCF)) = false
    · simp [sendReceipt, hv] at hk
    · rcases hc : w.certs orc with e | c
      · simp [sendReceipt, hv, hc] at hk
      · rcases ha : w.authResult with m | u
        · simp [sendReceipt, signXmlSvc, hv, hc, ha] at hk
        · rcases hd : w.sendDocResult with m2 | r2
          · simp [sendReceipt, signXmlSvc, hv, hc, ha, hd] at hk
          · simp only [sendReceipt, signXmlSvc, hv, hc, ha, hd] at hk
            rw [if_neg not_false] at hk
            simp only [Prod.mk.injEq, Except.ok.injEq] at hk
            obtain ⟨hr, htr⟩ := hk
            subst hr
            subst htr
            simp

/-- Witness for C2 amended: concrete traces for `sendInvoice`
(authentication first) and `sendReceipt` (signing first, signed bytes
reused by the submission). -/
theorem C2_amended_auth_then_submit_witness :
    noSignBeforeAuth (sendInvoice wEx invEx "130862346" "E310005000201" none).2 = true ∧
    signPrecedesAuth (sendReceipt wEx receiptEx none none).2 = true ∧
    Event.submit "sendElectronicDocument" "SIG(ARECF|ARECFXML)"
      "101000001E310005000201.xml" ∈ (sendReceipt wEx receiptEx none none).2 := by
  obtain ⟨h1, h2, h3, h4, h5, h6, h7, h8, h9, h10, h11, h12, h13, h14⟩ :=
    C2_amended_auth_then_submit (α := AcecfInput) (β := AcecfInput) wEx invEx invEx invEx
      receiptEx (generateAcecfXml wEx) rejNoReasonEx (generateAcecfXml wEx) rejNoReasonEx
      "130862346" "E310005000201" "f1.xml" "f2.xml" none none
  refine ⟨h1, h11, ?_⟩
  have hEq : sendReceipt wEx receiptEx none none =
      (Except.ok ⟨⟨some "TRACK1"⟩, "SIG(ARECF|ARECFXML)", "101000001E310005000201.xml"⟩,
        [Event.getCert none, Event.getCert none, Event.sign "ARECF", Event.auth,
          Event.submit "sendElectronicDocument" "SIG(ARECF|ARECFXML)"
            "101000001E310005000201.xml"]) := by decide
  have hm := h14
    ⟨⟨some "TRACK1"⟩, "SIG(ARECF|ARECFXML)", "101000001E310005000201.xml"⟩ _ hEq
  rw [hEq]
  exact hm

end Firmadgii
